import Mathlib

/-!
Verification of the data-ingestion pipeline: file analysis
(`data_ingestion/file_analyzer.py`), database materialization
(`database_builder.py`), schema refinement (`agents/schema_agent.py`) and the
ingestion orchestrator (`agents/ingestion_orchestrator.py`).

Strings are compared and transformed through their character lists, because
`String.Pos` arithmetic does not reduce in the kernel.  Python floating-point
scores appear only as sums of tenths (0.5, 0.3, 0.2, 0.4) compared against 0.5
and 0.8, and as percentage comparisons against fixed thresholds; at every
compared boundary the float arithmetic of the source is exact, so the scores
are embedded as exact integer tenths and the percentage tests as cross
multiplications.
-/

namespace Ingest

/-! ### String helpers (Python `in`, `.endswith`, `.lower`) -/

def lowerStr (s : String) : String := ⟨s.data.map Char.toLower⟩

def listStartsWith : List Char → List Char → Bool
  | _, [] => true
  | [], _ :: _ => false
  | a :: as, b :: bs => a == b && listStartsWith as bs

/-- `containsSubAux hay needle`: does `needle` occur as a contiguous run of `hay`? -/
def containsSubAux : List Char → List Char → Bool
  | [], needle => needle.isEmpty
  | a :: rest, needle => listStartsWith (a :: rest) needle || containsSubAux rest needle

/-- Python `needle in hay` on strings. -/
def strContains (hay needle : String) : Bool := containsSubAux hay.data needle.data

/-- Python `s.endswith(suffix)`. -/
def strEndsWith (s suffixStr : String) : Bool :=
  listStartsWith s.data.reverse suffixStr.data.reverse

/-! ### File analyzer data model (`file_parser.py` table dictionaries) -/

/-- One value of a parsed data cell, the slice of Python values the claims
touch (`datetime` and `dict`/`list` cells are outside this universe). -/
inductive PyValue
  | none
  | int (n : Int)
  | str (s : String)
  | bool (b : Bool)
deriving DecidableEq, Repr

/-- A data row: a Python dict in insertion order. -/
abbrev Row := List (String × PyValue)

/-- One column's statistics as produced by the file parser. -/
structure ColumnInfo where
  name : String
  type : String
  nullCount : Nat
  uniqueCount : Nat
deriving DecidableEq, Repr

/-- One parsed table: the `{"name", "row_count", "columns", "data"}` dict. -/
structure ParsedTable where
  name : String
  rowCount : Nat
  columns : List ColumnInfo
  data : List Row
deriving DecidableEq, Repr

/-- One parsed file: the `{"filename", "format", "tables"}` dict. -/
structure ParsedFile where
  filename : String
  format : String
  tables : List ParsedTable
deriving DecidableEq, Repr

/-- A table paired with its source file, as collected into `all_tables`. -/
structure TableEntry where
  sourceFile : String
  table : ParsedTable
deriving DecidableEq, Repr

/-! ### FileAnalyzer._suggest_primary_key -/

structure PkCandidate where
  column : String
  score : Nat
  reason : String
deriving DecidableEq, Repr

structure PkSuggestion where
  column : String
  confidence : String
  reason : String
deriving DecidableEq, Repr

/-- The candidate score: 100 base, +50 when the lower-cased name contains
"id", +25 when it ends with "_id" or equals "id", +25 for integer type. -/
def pk_score (col : ColumnInfo) : Nat :=
  let nameLower := lowerStr col.name
  let s := 100
  let s := if strContains nameLower "id" then s + 50 else s
  let s := if strEndsWith nameLower "_id" || nameLower == "id" then s + 25 else s
  let s := if col.type == "integer" then s + 25 else s
  s

/-- A column qualifies when its unique count equals the row count and it has
no nulls. -/
def pk_qualifies (t : ParsedTable) (col : ColumnInfo) : Bool :=
  col.uniqueCount == t.rowCount && col.nullCount == 0

def pk_candidates (t : ParsedTable) : List PkCandidate :=
  t.columns.filterMap fun col =>
    if pk_qualifies t col then
      some { column := col.name, score := pk_score col,
             reason := "Unique values, no nulls, type: " ++ col.type }
    else Option.none

/-- Python `max(candidates, key=lambda x: x["score"])`: the first element of
maximal score. -/
def max_by_score (c : PkCandidate) (cs : List PkCandidate) : PkCandidate :=
  cs.foldl (fun best x => if x.score > best.score then x else best) c

def suggest_primary_key (t : ParsedTable) : Option PkSuggestion :=
  if t.rowCount == 0 then Option.none
  else
    match pk_candidates t with
    | [] => Option.none
    | c :: cs =>
      let best := max_by_score c cs
      some { column := best.column,
             confidence := if best.score ≥ 150 then "high" else "medium",
             reason := best.reason }

/-! ### FileAnalyzer._calculate_column_similarity and _detect_relationships -/

/-- Similarity in tenths of the source's float score: +5 identical names,
+3 one lower-cased name inside the other, +2 identical types, +4 when one
lower-cased name contains "_id" and the other equals "id"; capped at 10. -/
def calculate_column_similarity (c1 c2 : ColumnInfo) : Nat :=
  let s := 0
  let s := if c1.name == c2.name then s + 5 else s
  let n1 := lowerStr c1.name
  let n2 := lowerStr c2.name
  let s := if strContains n2 n1 || strContains n1 n2 then s + 3 else s
  let s := if c1.type == c2.type then s + 2 else s
  let s := if (strContains n1 "_id" && n2 == "id") || (strContains n2 "_id" && n1 == "id")
           then s + 4 else s
  min s 10

/-- The human-readable reason string of `_get_relationship_reason` (its unused
`similarity_score` argument is dropped). -/
def get_relationship_reason (c1 c2 : ColumnInfo) : String :=
  let reasons : List String :=
    (if c1.name == c2.name then ["identical column names"]
     else if strContains (lowerStr c2.name) (lowerStr c1.name)
            || strContains (lowerStr c1.name) (lowerStr c2.name)
          then ["similar column names"] else [])
    ++ (if c1.type == c2.type then ["matching types (" ++ c1.type ++ ")"] else [])
    ++ (if strContains (lowerStr c1.name) "_id" || strContains (lowerStr c2.name) "_id"
        then ["foreign key naming pattern"] else [])
  if reasons.isEmpty then "column similarity detected"
  else String.intercalate ", " reasons

structure Relationship where
  fromFile : String
  fromTable : String
  fromColumn : String
  toFile : String
  toTable : String
  toColumn : String
  confidence : String
  reason : String
deriving DecidableEq, Repr

def mk_relationship (t1 t2 : TableEntry) (c1 c2 : ColumnInfo) (score : Nat) : Relationship :=
  { fromFile := t1.sourceFile, fromTable := t1.table.name, fromColumn := c1.name,
    toFile := t2.sourceFile, toTable := t2.table.name, toColumn := c2.name,
    confidence := if score > 8 then "high" else "medium",
    reason := get_relationship_reason c1 c2 }

/-- All relationships reported between a fixed ordered pair of tables: every
column pair scoring strictly above 0.5 (5 tenths). -/
def rels_between (t1 t2 : TableEntry) : List Relationship :=
  t1.table.columns.flatMap fun c1 =>
    t2.table.columns.filterMap fun c2 =>
      let score := calculate_column_similarity c1 c2
      if score > 5 then some (mk_relationship t1 t2 c1 c2 score) else Option.none

/-- The nested `for i, t1 in enumerate(all_tables): for t2 in all_tables[i+1:]`
loop. -/
def detect_relationships : List TableEntry → List Relationship
  | [] => []
  | t1 :: rest => (rest.flatMap (rels_between t1)) ++ detect_relationships rest

/-! ### FileAnalyzer._detect_data_quality_issues -/

/-- The issues `_detect_data_quality_issues` renders as strings; the payload
of `highNulls` is the column name interpolated into the message. -/
inductive QualityIssue
  | highNulls (columnName : String)
  | possibleDuplicates
  | noPrimaryKey
deriving DecidableEq, Repr

/-- `null_count / row_count * 100 > 50` (0 when the table is empty) as an exact
cross multiplication, `100 * null_count > 50 * row_count`;
`avg_unique_pct < 10` likewise becomes
`100 * Σ unique_count < 10 * row_count * #columns`.  On a non-empty table
with zero columns the source's `sum(...) / len(table["columns"])` raises
`ZeroDivisionError` ("division by zero"), modelled as `Except.error`; such a
table is reachable (a JSON file holding `{}` parses to one row and no
columns). -/
def detect_data_quality_issues (t : ParsedTable) : Except String (List QualityIssue) :=
  let nullIssues := t.columns.filterMap fun col =>
    if t.rowCount > 0 && 100 * col.nullCount > 50 * t.rowCount then
      some (QualityIssue.highNulls col.name)
    else Option.none
  if t.rowCount > 0 && t.columns.isEmpty then
    .error "division by zero"
  else
    let dupIssues :=
      if t.rowCount > 0
         && 100 * (t.columns.map (·.uniqueCount)).sum < 10 * t.rowCount * t.columns.length
         && t.rowCount > 10
      then [QualityIssue.possibleDuplicates] else []
    let pkIssues :=
      if !(t.columns.any fun col => col.uniqueCount == t.rowCount && col.nullCount == 0)
         && t.rowCount > 0
      then [QualityIssue.noPrimaryKey] else []
    .ok (nullIssues ++ dupIssues ++ pkIssues)

/-! ### FileAnalyzer.analyze_files aggregation -/

/-- The `suggested_primary_keys` dict in insertion order, keyed
`file.table`. -/
def suggested_primary_keys (allTables : List TableEntry) : List (String × PkSuggestion) :=
  allTables.filterMap fun e =>
    match suggest_primary_key e.table with
    | some pk => some (e.sourceFile ++ "." ++ e.table.name, pk)
    | Option.none => Option.none

structure QualityFinding where
  file : String
  table : String
  issue : QualityIssue
deriving DecidableEq, Repr

/-- The `data_quality_issues` loop of `analyze_files`: tables in order, one
finding per issue; the first table whose issue detection raises aborts the
analysis with that exception. -/
def data_quality_findings (allTables : List TableEntry) :
    Except String (List QualityFinding) :=
  allTables.foldlM
    (fun acc e => do
      let issues ← detect_data_quality_issues e.table
      pure (acc ++ issues.map fun i =>
        ({ file := e.sourceFile, table := e.table.name, issue := i } : QualityFinding)))
    []

/-- The analysis record of `analyze_files`; the natural-language summary
string (presentation only, touched by no claim) is not carried. -/
structure FileAnalysis where
  totalFiles : Nat
  totalTables : Nat
  totalRows : Nat
  relationships : List Relationship
  suggestedPrimaryKeys : List (String × PkSuggestion)
  qualityFindings : List QualityFinding
deriving DecidableEq, Repr

def all_table_entries (parsedFiles : List ParsedFile) : List TableEntry :=
  parsedFiles.flatMap fun pf =>
    pf.tables.map fun t => { sourceFile := pf.filename, table := t }

/-- `analyze_files`: the per-file summaries, relationship detection and
primary-key suggestions are total; the quality-issue loop is the one
raise-site (the `ZeroDivisionError` above), so the analysis as a whole is
fallible. -/
def analyze_files (parsedFiles : List ParsedFile) : Except String FileAnalysis := do
  let allTables := all_table_entries parsedFiles
  let findings ← data_quality_findings allTables
  pure { totalFiles := parsedFiles.length,
         totalTables := (parsedFiles.map (·.tables.length)).sum,
         totalRows := (allTables.map (·.table.rowCount)).sum,
         relationships := if allTables.length > 1 then detect_relationships allTables else [],
         suggestedPrimaryKeys := suggested_primary_keys allTables,
         qualityFindings := findings }

/-! ### DatabaseBuilder (`database_builder.py`) -/

/-- `_convert_value`: `None` stays `None`, booleans become 0/1, everything
else passes through (`datetime`/`dict`/`list` are outside `PyValue`). -/
def convert_value : PyValue → PyValue
  | .none => .none
  | .bool b => .int (if b then 1 else 0)
  | v => v

/-- Python `row.get(col)`: `None` when the key is absent. -/
def row_get (row : Row) (key : String) : PyValue :=
  match row.lookup key with
  | some v => v
  | Option.none => .none

/-- The values bound to the INSERT placeholders for one row:
`[self._convert_value(row.get(col)) for col in col_names]`. -/
def row_values (colNames : List String) (row : Row) : List PyValue :=
  colNames.map fun c => convert_value (row_get row c)

/-- The column list of the prepared INSERT statement: the keys of the first
data row (`list(data[0].keys())`), empty for an empty table. -/
def insert_cols : List Row → List String
  | [] => []
  | first :: _ => first.map (·.1)

/-- The sqlite engine's response to `cursor.execute(insert_sql, values)` on a
given table: `Option.none` for success, `some msg` for the text of the raised
`sqlite3.Error` (the engine itself is not repository code). -/
abbrev InsertExec := String → List PyValue → Option String

/-- `_insert_data`: per-row try/except, counting successes and collecting one
error message per failing row; returns `(rows_inserted, error_messages)`. -/
def insert_data (exec : InsertExec) (tableName : String) (data : List Row) :
    Nat × List String :=
  match data with
  | [] => (0, [])
  | first :: _ =>
    let colNames := first.map (·.1)
    data.foldl
      (fun acc row =>
        match exec tableName (row_values colNames row) with
        | Option.none => (acc.1 + 1, acc.2)
        | some e => (acc.1, acc.2 ++ ["Error inserting row into " ++ tableName ++ ": " ++ e]))
      (0, [])

/-- Python dict assignment `d[k] = v`: overwrite in place or append. -/
def dict_set (d : List (String × Nat)) (k : String) (v : Nat) : List (String × Nat) :=
  if d.any (·.1 == k) then d.map fun kv => if kv.1 == k then (k, v) else kv
  else d ++ [(k, v)]

/-- The result dict of `create_database_from_schema` (`db_path` is environment
dependent and not carried). -/
structure BuildResult where
  success : Bool
  tablesCreated : Nat
  rowsInserted : List (String × Nat)
  errors : List String
  warnings : List String
deriving DecidableEq, Repr

/-- `create_database_from_schema` after the CREATE TABLE statements were
generated from the schema code: `createResults` is the engine's response to
each statement in order (`Option.none` success, `some msg` a `sqlite3.Error`),
`exec` its response to each row insertion.  Each CREATE failure adds one
error; every table of every parsed file is then loaded through
`_insert_data`, accumulating per-table insert counts and row-level warnings;
`success` is true because per-statement and per-row errors are caught (the
outer `except` covers only environment failures such as an unwritable
path). -/
def create_database_from_schema (createResults : List (Option String))
    (exec : InsertExec) (parsedData : List ParsedFile) : BuildResult :=
  let tablesCreated := createResults.countP (·.isNone)
  let createErrors := createResults.filterMap fun r =>
    r.map fun e => "Error creating table: " ++ e
  let step := fun (acc : List (String × Nat) × List String) (t : ParsedTable) =>
    let ins := insert_data exec t.name t.data
    (dict_set acc.1 t.name ins.1, acc.2 ++ ins.2)
  let loaded := (parsedData.flatMap (·.tables)).foldl step ([], [])
  { success := true, tablesCreated := tablesCreated,
    rowsInserted := loaded.1, errors := createErrors, warnings := loaded.2 }

/-! ### SchemaAgent (`agents/schema_agent.py`) -/

/-- One entry of a verification report's `issues` list; only the severity is
consumed by the refinement logic. -/
structure VIssue where
  severity : String
  category : String
  description : String
deriving DecidableEq, Repr

structure Verification where
  isSufficient : Bool
  issues : List VIssue
  warnings : List String
deriving DecidableEq, Repr

/-- The Router override at the end of `_verify_schema`: when the service's own
flag is falsy, the flag becomes "no critical issues". -/
def verify_schema_post (v : Verification) : Verification :=
  if v.isSufficient then v
  else { v with
         isSufficient := (v.issues.filter fun i => i.severity == "critical").length == 0 }

structure PlanColumn where
  name : String
  type : String
  nullable : Bool := true
  unique : Bool := false
  primaryKey : Bool := false
  foreignKey : Option String := Option.none
deriving DecidableEq, Repr

structure PlanTable where
  name : String
  purpose : Option String := Option.none
  columns : List PlanColumn := []
  indexes : List String := []
deriving DecidableEq, Repr

structure PlanRelationship where
  fromTable : String
  fromColumn : String
  toTable : String
  toColumn : String
  relationshipType : Option String := Option.none
deriving DecidableEq, Repr

structure Plan where
  tables : List PlanTable := []
  relationships : List PlanRelationship := []
deriving DecidableEq, Repr

/-- One rendered column line of `_generate_description`. -/
def describe_column (col : PlanColumn) : String :=
  let flags : List String :=
    (if col.primaryKey then ["PK"] else [])
    ++ (if col.unique then ["UNIQUE"] else [])
    ++ (if !col.nullable then ["NOT NULL"] else [])
    ++ (match col.foreignKey with
        | some fk => ["FK → " ++ fk]
        | Option.none => [])
  let flagStr := if flags.isEmpty then "" else " [" ++ String.intercalate ", " flags ++ "]"
  "- `" ++ col.name ++ "` (" ++ col.type ++ ")" ++ flagStr

def describe_table (t : PlanTable) : List String :=
  ["\n## " ++ t.name,
   (match t.purpose with | some p => p | Option.none => "No description") ++ "\n",
   "**Columns (" ++ toString t.columns.length ++ "):**"]
  ++ t.columns.map describe_column

def describe_relationship (r : PlanRelationship) : String :=
  "- " ++ r.fromTable ++ "." ++ r.fromColumn ++ " → " ++ r.toTable ++ "." ++ r.toColumn
    ++ " (" ++ (match r.relationshipType with | some s => s | Option.none => "unknown") ++ ")"

/-- `_generate_description`: a pure walk of the plan's tables, columns and
relationships, no service call. -/
def generate_description (plan : Plan) : String :=
  let lines := ["# Database Schema Description\n"]
    ++ ["This schema contains " ++ toString plan.tables.length ++ " table(s):\n"]
    ++ plan.tables.flatMap describe_table
    ++ (if !plan.relationships.isEmpty then
          ["\n## Relationships\n"] ++ plan.relationships.map describe_relationship
        else [])
  String.intercalate "\n" lines

/-- The dictionary `generate_schema` returns (`refinement_history` is carried
through its length, `rounds_taken`). -/
structure SchemaResult where
  schemaCode : String
  schemaDescription : String
  verificationStatus : Bool
  warnings : List String
  relationshipsDetected : List PlanRelationship
  roundsTaken : Nat
deriving DecidableEq, Repr

/-- The OpenAI-backed calls of `SchemaAgent`.  Each call takes the 1-based
round number (0 for the final post-loop `_generate_code` call) so a behaviour
may differ between invocations; `Except.error` models the call raising (an
API error, or `json.loads` on malformed output). -/
structure SynthesisService where
  createInitialPlan : Except String Plan
  refinePlan : Nat → Plan → Verification → Except String Plan
  generateCode : Nat → Plan → Except String String
  verifySchemaRaw : Nat → String → Plan → Except String Verification

/-- `_verify_schema`: the service call followed by the Router override. -/
def verify_schema (svc : SynthesisService) (round : Nat) (code : String) (plan : Plan) :
    Except String Verification := do
  let raw ← svc.verifySchemaRaw round code plan
  pure (verify_schema_post raw)

/-- The refinement rounds after the first: starting from round `round` with
the given plan and verification, stop when sufficient or out of rounds
(`fuel` many remain), else refine, regenerate code, re-verify.  Returns the
final plan, the final verification and the number of rounds run.
`_route_next_action` (a pure function of the verification, no service call)
only selects the log message and is not carried. -/
def schema_rounds (svc : SynthesisService) :
    Nat → Nat → Plan → Verification → Except String (Plan × Verification × Nat)
  | fuel, round, plan, verif =>
    if verif.isSufficient then .ok (plan, verif, round)
    else
      match fuel with
      | 0 => .ok (plan, verif, round)
      | fuel' + 1 => do
        let plan' ← svc.refinePlan (round + 1) plan verif
        let code ← svc.generateCode (round + 1) plan'
        let verif' ← verify_schema svc (round + 1) code plan'
        schema_rounds svc fuel' (round + 1) plan' verif'

/-- `SchemaAgent.generate_schema` for `max_rounds ≥ 1` (the source's loop
always runs its first round; `max_rounds = 0` crashes the source on an unbound
local).  There is no try/except anywhere in the method: any failing service
call propagates, which `Except.error` models. -/
def generate_schema (svc : SynthesisService) (maxRounds : Nat) :
    Except String SchemaResult := do
  let plan ← svc.createInitialPlan
  let code ← svc.generateCode 1 plan
  let verif ← verify_schema svc 1 code plan
  let final ← schema_rounds svc (maxRounds - 1) 1 plan verif
  let finalCode ← svc.generateCode 0 final.1
  pure { schemaCode := finalCode,
         schemaDescription := generate_description final.1,
         verificationStatus := final.2.1.isSufficient,
         warnings := final.2.1.warnings,
         relationshipsDetected := final.1.relationships,
         roundsTaken := final.2.2 }

/-! ### IngestionOrchestrator (`agents/ingestion_orchestrator.py`) -/

structure FileInfo where
  name : String
  path : String
deriving DecidableEq, Repr

/-- `IngestionState`, without the timestamps and the progress dict. -/
structure IngestionState where
  stage : String := "uploaded"
  files : List FileInfo := []
  requirements : String := ""
  errors : List String := []
  parsedData : Option (List ParsedFile) := Option.none
  fileAnalysis : Option FileAnalysis := Option.none
  schemaResult : Option SchemaResult := Option.none
  databaseResult : Option BuildResult := Option.none
deriving Repr

/-- The per-file parsing loop of `process_files`: successfully parsed files in
order, and one collected error message per failing file.  `parse` is
`FileParser.parse_file`'s behaviour (`Except.error` a raised exception). -/
def parse_stage (parse : FileInfo → Except String ParsedFile) (files : List FileInfo) :
    List ParsedFile × List String :=
  files.foldl
    (fun acc f =>
      match parse f with
      | .ok p => (acc.1 ++ [p], acc.2)
      | .error e => (acc.1, acc.2 ++ ["Error parsing " ++ f.name ++ ": " ++ e]))
    ([], [])

/-- `IngestionOrchestrator.process_files` on a known upload: parse every file
(each file in its own try/except), fail the job when nothing parsed, else
store the parsed data and analyze.  The method's outer try/except catches an
exception raised by the analyzer: the job then fails with
"Processing failed: ..." while the already-stored parsed data remains.
Returns the new state and either the fatal error or the number of files
parsed. -/
def process_files (parse : FileInfo → Except String ParsedFile)
    (st : IngestionState) : IngestionState × Except String Nat :=
  let st1 := { st with stage := "parsing" }
  let parsed := parse_stage parse st1.files
  let st2 := { st1 with errors := st1.errors ++ parsed.2 }
  if parsed.1.isEmpty then
    ({ st2 with stage := "failed", errors := st2.errors ++ ["No files successfully parsed"] },
     .error "No files successfully parsed")
  else
    match analyze_files parsed.1 with
    | .error e =>
      ({ st2 with parsedData := some parsed.1, stage := "failed",
                  errors := st2.errors ++ ["Processing failed: " ++ e] },
       .error ("Processing failed: " ++ e))
    | .ok analysis =>
      ({ st2 with parsedData := some parsed.1, stage := "analyzing",
                  fileAnalysis := some analysis },
       .ok parsed.1.length)

/-- `db_name or f"ingestion_{upload_id[:8]}"`. -/
def resolved_db_name (dbName : Option String) (uploadIdShort : String) : String :=
  match dbName with
  | some n => n
  | Option.none => "ingestion_" ++ uploadIdShort

/-- `IngestionOrchestrator.finalize_ingestion` on a known upload.  `build` is
`DatabaseBuilder.create_database_from_schema`'s behaviour on
(schema code, db name, parsed data).  Returns the new state, the list of
stage assignments performed in order, and how many times the builder ran. -/
def finalize_ingestion (build : String → String → Option (List ParsedFile) → BuildResult)
    (st : IngestionState) (dbName : Option String) (approved : Bool)
    (uploadIdShort : String) : IngestionState × List String × Nat :=
  if !approved then
    ({ st with stage := "awaiting_approval" }, ["awaiting_approval"], 0)
  else
    match st.schemaResult with
    | Option.none => (st, [], 0)
    | some sr =>
      let dbResult := build sr.schemaCode (resolved_db_name dbName uploadIdShort) st.parsedData
      let st2 := { st with stage := "creating_database", databaseResult := some dbResult }
      if dbResult.success then
        ({ st2 with stage := "completed" }, ["creating_database", "completed"], 1)
      else
        ({ st2 with stage := "failed", errors := st2.errors ++ dbResult.errors },
         ["creating_database", "failed"], 1)

/-! ### Concrete instances and auxiliary definitions used by the theorems -/

def c2_report : Verification :=
  { isSufficient := false,
    issues := [{ severity := "warning", category := "design", description := "d" }],
    warnings := [] }

/-- The state of a job sitting at `awaiting_approval` with a generated
schema. -/
def awaiting_state (st : IngestionState) (sr : SchemaResult) : IngestionState :=
  { st with stage := "awaiting_approval", schemaResult := some sr }

/-- Rows of a table the engine accepts, counted as `_insert_data` does. -/
def table_inserted (exec : InsertExec) (t : ParsedTable) : Nat :=
  t.data.countP fun row => (exec t.name (row_values (insert_cols t.data) row)).isNone

/-- The row-level warnings `_insert_data` collects for one table, in row
order: one message per rejected row, naming the table. -/
def table_warnings (exec : InsertExec) (t : ParsedTable) : List String :=
  t.data.filterMap fun row =>
    (exec t.name (row_values (insert_cols t.data) row)).map
      fun e => "Error inserting row into " ++ t.name ++ ": " ++ e

/-- Ten rows for the partial-failure scenario: only row 5 carries a NULL in
its `name` cell. -/
def c3_rows : List Row :=
  [[("id", PyValue.int 1), ("name", PyValue.str "r1")],
   [("id", PyValue.int 2), ("name", PyValue.str "r2")],
   [("id", PyValue.int 3), ("name", PyValue.str "r3")],
   [("id", PyValue.int 4), ("name", PyValue.str "r4")],
   [("id", PyValue.int 5), ("name", PyValue.none)],
   [("id", PyValue.int 6), ("name", PyValue.str "r6")],
   [("id", PyValue.int 7), ("name", PyValue.str "r7")],
   [("id", PyValue.int 8), ("name", PyValue.str "r8")],
   [("id", PyValue.int 9), ("name", PyValue.str "r9")],
   [("id", PyValue.int 10), ("name", PyValue.str "r10")]]

/-- An engine enforcing NOT NULL on every bound column: any NULL value makes
the INSERT raise. -/
def c3_exec : InsertExec := fun _ vals =>
  if vals.contains PyValue.none then some "NOT NULL constraint failed: patients.name"
  else Option.none

def c3_file : ParsedFile :=
  { filename := "patients.csv", format := "csv",
    tables := [{ name := "patients", rowCount := 10, columns := [], data := c3_rows }] }

/-- A table whose only unique, never-null column is the integer column
"id". -/
def c4_table : ParsedTable :=
  { name := "patients", rowCount := 3,
    columns := [{ name := "id", type := "integer", nullCount := 0, uniqueCount := 3 },
                { name := "city", type := "text", nullCount := 0, uniqueCount := 2 }],
    data := [] }

/-- Modelled from the claim text: the similarity formula whose naming-pattern
term awards +0.4 only when one column's lower-cased name ENDS in "_id" and
the other is exactly "id" (tenths). -/
def claimed_column_similarity (c1 c2 : ColumnInfo) : Nat :=
  let n1 := lowerStr c1.name
  let n2 := lowerStr c2.name
  min ((if c1.name == c2.name then 5 else 0)
    + (if strContains n2 n1 || strContains n1 n2 then 3 else 0)
    + (if c1.type == c2.type then 2 else 0)
    + (if (strEndsWith n1 "_id" && n2 == "id") || (strEndsWith n2 "_id" && n1 == "id")
       then 4 else 0)) 10

/-- The amended formula: as claimed, except the naming-pattern term requires
only that one lower-cased name CONTAIN "_id" while the other is exactly
"id". -/
def amended_column_similarity (c1 c2 : ColumnInfo) : Nat :=
  let n1 := lowerStr c1.name
  let n2 := lowerStr c2.name
  min ((if c1.name == c2.name then 5 else 0)
    + (if strContains n2 n1 || strContains n1 n2 then 3 else 0)
    + (if c1.type == c2.type then 2 else 0)
    + (if (strContains n1 "_id" && n2 == "id") || (strContains n2 "_id" && n1 == "id")
       then 4 else 0)) 10

def c5_colA : ColumnInfo := { name := "a_idb", type := "text", nullCount := 0, uniqueCount := 3 }

def c5_colB : ColumnInfo := { name := "id", type := "integer", nullCount := 0, uniqueCount := 3 }

def c5_e1 : TableEntry :=
  { sourceFile := "a.csv",
    table := { name := "a", rowCount := 3, columns := [c5_colA], data := [] } }

def c5_e2 : TableEntry :=
  { sourceFile := "b.csv",
    table := { name := "b", rowCount := 3, columns := [c5_colB], data := [] } }

def swap_relationship (r : Relationship) : Relationship :=
  { fromFile := r.toFile, fromTable := r.toTable, fromColumn := r.toColumn,
    toFile := r.fromFile, toTable := r.fromTable, toColumn := r.fromColumn,
    confidence := r.confidence, reason := r.reason }

def failing_service : SynthesisService :=
  { createInitialPlan := .error "service unavailable",
    refinePlan := fun _ _ _ => .error "service unavailable",
    generateCode := fun _ _ => .error "service unavailable",
    verifySchemaRaw := fun _ _ _ => .error "service unavailable" }

def total_service : SynthesisService :=
  { createInitialPlan := .ok {},
    refinePlan := fun _ p _ => .ok p,
    generateCode := fun _ _ => .ok "code",
    verifySchemaRaw := fun _ _ _ => .ok { isSufficient := true, issues := [], warnings := [] } }

/-! ### General lemmas -/

theorem str_beq_comm (a b : String) : (a == b) = (b == a) := by
  by_cases h : a = b
  · subst h; rfl
  · rw [beq_eq_false_iff_ne.mpr h, beq_eq_false_iff_ne.mpr (Ne.symm h)]

/-! ### C2 -/

/-- C2: whenever a round's verification report contains zero issues of
severity "critical", the `is_sufficient` flag `_verify_schema` delivers to the
loop is true, regardless of the flag the service itself returned; the flag
delivered through the monadic call is exactly the overridden one. -/
theorem c2_router_forces_sufficient (v : Verification)
    (h : v.issues.countP (fun i => i.severity == "critical") = 0) :
    (verify_schema_post v).isSufficient = true ∧
    ∀ (svc : SynthesisService) (round : Nat) (code : String) (plan : Plan),
      svc.verifySchemaRaw round code plan = Except.ok v →
      verify_schema svc round code plan = Except.ok (verify_schema_post v) := by
  constructor
  · unfold verify_schema_post
    cases hs : v.isSufficient with
    | true => simp [hs]
    | false =>
      have hlen : (v.issues.filter fun i => i.severity == "critical").length = 0 := by
        rw [← List.countP_eq_length_filter]; exact h
      simp [hlen]
  · intro svc round code plan hraw
    simp [verify_schema, hraw]

theorem c2_witness :
    c2_report.issues.countP (fun i => i.severity == "critical") = 0 ∧
    (verify_schema_post c2_report).isSufficient = true :=
  ⟨by decide, (c2_router_forces_sufficient c2_report (by decide)).1⟩

/-! ### C9 -/

/-- C9: a table whose row count is 0 gets no primary-key suggestion and no
data-quality findings: `_suggest_primary_key` returns `None`,
`_detect_data_quality_issues` returns `[]`, and in `analyze_files` such a
table contributes nothing to the suggested-keys dict or the issue list. -/
theorem c9_empty_table_silent (nm : String) (cols : List ColumnInfo) (data : List Row)
    (src : String) (rest : List TableEntry) :
    suggest_primary_key { name := nm, rowCount := 0, columns := cols, data := data }
      = Option.none ∧
    detect_data_quality_issues { name := nm, rowCount := 0, columns := cols, data := data }
      = Except.ok [] ∧
    suggested_primary_keys
        ({ sourceFile := src,
           table := { name := nm, rowCount := 0, columns := cols, data := data } } :: rest)
      = suggested_primary_keys rest ∧
    data_quality_findings
        ({ sourceFile := src,
           table := { name := nm, rowCount := 0, columns := cols, data := data } } :: rest)
      = data_quality_findings rest := by
  refine ⟨?_, ?_, ?_, ?_⟩
  · simp [suggest_primary_key]
  · simp [detect_data_quality_issues]
  · simp [suggested_primary_keys, List.filterMap_cons, suggest_primary_key]
  · have hdet : detect_data_quality_issues
        { name := nm, rowCount := 0, columns := cols, data := data } = Except.ok [] := by
      simp [detect_data_quality_issues]
    simp [data_quality_findings, hdet, bind, Except.bind, pure, Except.pure]

/-! ### C8 -/

/-- C8: from `awaiting_approval`, finalization with approval withheld leaves
the stage at `awaiting_approval`, performs no other stage transition, never
invokes the builder and leaves the database result unchanged; with approval
granted the job moves to `creating_database` and then to `completed` when the
build succeeds, `failed` when it does not, with the build result recorded. -/
theorem c8_finalize_approval
    (build : String → String → Option (List ParsedFile) → BuildResult)
    (st : IngestionState) (sr : SchemaResult) (dbName : Option String) (uid : String) :
    (finalize_ingestion build (awaiting_state st sr) dbName false uid).1.stage
      = "awaiting_approval" ∧
    (finalize_ingestion build (awaiting_state st sr) dbName false uid).2.1
      = ["awaiting_approval"] ∧
    (finalize_ingestion build (awaiting_state st sr) dbName false uid).2.2 = 0 ∧
    (finalize_ingestion build (awaiting_state st sr) dbName false uid).1.databaseResult
      = st.databaseResult ∧
    (finalize_ingestion build (awaiting_state st sr) dbName true uid).2.1
      = ["creating_database",
         if (build sr.schemaCode (resolved_db_name dbName uid) st.parsedData).success
         then "completed" else "failed"] ∧
    (finalize_ingestion build (awaiting_state st sr) dbName true uid).2.2 = 1 ∧
    (finalize_ingestion build (awaiting_state st sr) dbName true uid).1.stage
      = (if (build sr.schemaCode (resolved_db_name dbName uid) st.parsedData).success
         then "completed" else "failed") ∧
    (finalize_ingestion build (awaiting_state st sr) dbName true uid).1.databaseResult
      = some (build sr.schemaCode (resolved_db_name dbName uid) st.parsedData) := by
  refine ⟨rfl, rfl, rfl, rfl, ?_, ?_, ?_, ?_⟩ <;>
    by_cases hbs : (build sr.schemaCode (resolved_db_name dbName uid) st.parsedData).success <;>
      simp [finalize_ingestion, awaiting_state, hbs]

/-! ### C7 -/

theorem parse_stage_eq (parse : FileInfo → Except String ParsedFile) (files : List FileInfo) :
    parse_stage parse files
      = (files.filterMap (fun f => (parse f).toOption),
         files.filterMap fun f =>
           match parse f with
           | .error e => some ("Error parsing " ++ f.name ++ ": " ++ e)
           | .ok _ => Option.none) := by
  suffices h : ∀ (fs : List FileInfo) (a : List ParsedFile) (b : List String),
      fs.foldl
        (fun acc f =>
          match parse f with
          | .ok p => (acc.1 ++ [p], acc.2)
          | .error e => (acc.1, acc.2 ++ ["Error parsing " ++ f.name ++ ": " ++ e]))
        (a, b)
      = (a ++ fs.filterMap (fun f => (parse f).toOption),
         b ++ fs.filterMap fun f =>
           match parse f with
           | .error e => some ("Error parsing " ++ f.name ++ ": " ++ e)
           | .ok _ => Option.none) by
    simpa [parse_stage] using h files [] []
  intro fs
  induction fs with
  | nil => simp
  | cons f rest ih =>
    intro a b
    cases hf : parse f with
    | ok p => simp [hf, ih, Except.toOption]
    | error e => simp [hf, ih, Except.toOption]

/-- C7: during parsing, each per-file failure appends exactly one error and
the batch continues (the parsed list is exactly the successfully parsed files
in order); the job is driven to "failed" by the parsing stage exactly when
zero files parsed, in which case the error "No files successfully parsed" is
recorded, no analysis is attempted and the call returns that error; with at
least one parsed file the parsing stage never fails the job: the parsed data
is stored and the job reaches "analyzing" with the analysis stored when the
analyzer returns — or "failed" with a "Processing failed" error, through the
outer try/except, when the analyzer raises (a non-empty zero-column
table). -/
theorem c7_parse_failure_policy (parse : FileInfo → Except String ParsedFile)
    (st : IngestionState) :
    (parse_stage parse st.files).1 = st.files.filterMap (fun f => (parse f).toOption) ∧
    ((parse_stage parse st.files).2 = st.files.filterMap fun f =>
        match parse f with
        | .error e => some ("Error parsing " ++ f.name ++ ": " ++ e)
        | .ok _ => Option.none) ∧
    (process_files parse st).1.stage
      = (if (parse_stage parse st.files).1.isEmpty then "failed"
         else match analyze_files (parse_stage parse st.files).1 with
              | .error _ => "failed"
              | .ok _ => "analyzing") ∧
    (process_files parse st).1.errors
      = st.errors ++ (parse_stage parse st.files).2
          ++ (if (parse_stage parse st.files).1.isEmpty
              then ["No files successfully parsed"]
              else match analyze_files (parse_stage parse st.files).1 with
                   | .error e => ["Processing failed: " ++ e]
                   | .ok _ => []) ∧
    (process_files parse st).1.parsedData
      = (if (parse_stage parse st.files).1.isEmpty then st.parsedData
         else some (parse_stage parse st.files).1) ∧
    (process_files parse st).1.fileAnalysis
      = (if (parse_stage parse st.files).1.isEmpty then st.fileAnalysis
         else match analyze_files (parse_stage parse st.files).1 with
              | .error _ => st.fileAnalysis
              | .ok a => some a) ∧
    (process_files parse st).2
      = (if (parse_stage parse st.files).1.isEmpty
         then Except.error "No files successfully parsed"
         else match analyze_files (parse_stage parse st.files).1 with
              | .error e => Except.error ("Processing failed: " ++ e)
              | .ok _ => Except.ok (parse_stage parse st.files).1.length) := by
  by_cases he : (parse_stage parse st.files).1.isEmpty
  · refine ⟨congrArg Prod.fst (parse_stage_eq parse st.files),
            congrArg Prod.snd (parse_stage_eq parse st.files), ?_, ?_, ?_, ?_, ?_⟩ <;>
      simp [process_files, he]
  · cases ha : analyze_files (parse_stage parse st.files).1 with
    | error e =>
      refine ⟨congrArg Prod.fst (parse_stage_eq parse st.files),
              congrArg Prod.snd (parse_stage_eq parse st.files), ?_, ?_, ?_, ?_, ?_⟩ <;>
        simp [process_files, he, ha]
    | ok a =>
      refine ⟨congrArg Prod.fst (parse_stage_eq parse st.files),
              congrArg Prod.snd (parse_stage_eq parse st.files), ?_, ?_, ?_, ?_, ?_⟩ <;>
        simp [process_files, he, ha]

/-! ### C10 -/

theorem lookup_filter_mem (colNames : List String) (row : Row) (c : String)
    (hc : c ∈ colNames) :
    (row.filter fun kv => decide (kv.1 ∈ colNames)).lookup c = row.lookup c := by
  induction row with
  | nil => rfl
  | cons kv rest ih =>
    obtain ⟨k, v⟩ := kv
    by_cases hk : k ∈ colNames
    · rw [List.filter_cons_of_pos (by simpa using hk)]
      cases hck : (c == k) <;> simp [List.lookup, hck, ih]
    · rw [List.filter_cons_of_neg (by simpa using hk)]
      have hck : (c == k) = false := by
        refine beq_eq_false_iff_ne.mpr ?_
        intro h; exact hk (h ▸ hc)
      simp [List.lookup, hck, ih]

theorem row_values_filter (colNames : List String) (row : Row) :
    row_values colNames (row.filter fun kv => decide (kv.1 ∈ colNames))
      = row_values colNames row := by
  unfold row_values row_get
  refine List.map_congr_left ?_
  intro c hc
  rw [lookup_filter_mem colNames row c hc]

theorem insert_data_congr (exec : InsertExec) (nm : String) (colNames : List String)
    (rows1 rows2 : List Row)
    (h : rows1.map (row_values colNames) = rows2.map (row_values colNames)) :
    ∀ acc : Nat × List String,
      rows1.foldl
        (fun acc row =>
          match exec nm (row_values colNames row) with
          | Option.none => (acc.1 + 1, acc.2)
          | some e => (acc.1, acc.2 ++ ["Error inserting row into " ++ nm ++ ": " ++ e]))
        acc
      = rows2.foldl
        (fun acc row =>
          match exec nm (row_values colNames row) with
          | Option.none => (acc.1 + 1, acc.2)
          | some e => (acc.1, acc.2 ++ ["Error inserting row into " ++ nm ++ ": " ++ e]))
        acc := by
  induction rows1 generalizing rows2 with
  | nil => cases rows2 with
    | nil => intro acc; rfl
    | cons r rs => simp at h
  | cons r rs ih =>
    cases rows2 with
    | nil => simp at h
    | cons r' rs' =>
      simp only [List.map_cons, List.cons.injEq] at h
      intro acc
      simp only [List.foldl_cons, h.1]
      exact ih rs' h.2 _

/-- C10: the INSERT column list is exactly the key list of the first data
row; a row lacking one of those keys has NULL (`None`) bound for it; and keys
appearing only in later rows are silently ignored — stripping them from every
later row changes neither the bound values nor the entire insertion outcome
(counts and warnings alike). -/
theorem c10_first_row_keys (exec : InsertExec) (tableName : String)
    (first : Row) (rest : List Row) :
    insert_cols (first :: rest) = first.map (·.1) ∧
    (∀ (row : Row) (c : String), row.lookup c = Option.none →
        convert_value (row_get row c) = PyValue.none) ∧
    (∀ row : Row,
        row_values (first.map (·.1)) (row.filter fun kv => decide (kv.1 ∈ first.map (·.1)))
          = row_values (first.map (·.1)) row) ∧
    insert_data exec tableName
        (first :: rest.map fun row => row.filter fun kv => decide (kv.1 ∈ first.map (·.1)))
      = insert_data exec tableName (first :: rest) := by
  refine ⟨rfl, ?_, ?_, ?_⟩
  · intro row c h
    simp [row_get, h, convert_value]
  · intro row
    exact row_values_filter (first.map (·.1)) row
  · unfold insert_data
    refine insert_data_congr exec tableName (first.map (·.1)) _ _ ?_ _
    simp only [List.map_cons, List.map_map, List.cons.injEq]
    refine ⟨trivial, ?_⟩
    refine List.map_congr_left ?_
    intro row _
    exact row_values_filter (first.map (·.1)) row

/-! ### C3 -/

theorem insert_data_eq (exec : InsertExec) (nm : String) (data : List Row) :
    insert_data exec nm data
      = (data.countP fun row => (exec nm (row_values (insert_cols data) row)).isNone,
         data.filterMap fun row =>
           (exec nm (row_values (insert_cols data) row)).map
             fun e => "Error inserting row into " ++ nm ++ ": " ++ e) := by
  cases data with
  | nil => rfl
  | cons first rest =>
    show (first :: rest).foldl _ (0, []) = _
    suffices h : ∀ (rows : List Row) (k : Nat) (es : List String),
        rows.foldl
          (fun acc row =>
            match exec nm (row_values (first.map (·.1)) row) with
            | Option.none => (acc.1 + 1, acc.2)
            | some e => (acc.1, acc.2 ++ ["Error inserting row into " ++ nm ++ ": " ++ e]))
          (k, es)
        = (k + rows.countP (fun row => (exec nm (row_values (first.map (·.1)) row)).isNone),
           es ++ rows.filterMap fun row =>
             (exec nm (row_values (first.map (·.1)) row)).map
               fun e => "Error inserting row into " ++ nm ++ ": " ++ e) by
      simpa [insert_cols] using h (first :: rest) 0 []
    intro rows
    induction rows with
    | nil => simp
    | cons r rs ih =>
      intro k es
      cases hr : exec nm (row_values (first.map (·.1)) r) with
      | none => simp [hr, ih, List.countP_cons, Nat.add_comm, Nat.add_assoc, Nat.add_left_comm]
      | some e => simp [hr, ih, List.countP_cons]

theorem length_filterMap_countP {α β : Type} (g : α → Option β) (l : List α) :
    (l.filterMap g).length = l.countP fun a => (g a).isSome := by
  induction l with
  | nil => rfl
  | cons a as ih =>
    cases hg : g a <;> simp [hg, ih, List.countP_cons]

theorem countP_isSome_isNone {α β : Type} (g : α → Option β) (l : List α) :
    (l.countP fun a => (g a).isSome) = l.length - l.countP fun a => (g a).isNone := by
  induction l with
  | nil => rfl
  | cons a as ih =>
    have hle : (as.countP fun a => (g a).isNone) ≤ as.length := List.countP_le_length _
    cases hg : g a <;> simp [hg, ih, List.countP_cons] <;> omega

theorem dict_set_absent (d : List (String × Nat)) (k : String) (v : Nat)
    (h : ∀ p ∈ d, p.1 ≠ k) : dict_set d k v = d ++ [(k, v)] := by
  unfold dict_set
  have hk : d.any (·.1 == k) = false := by
    simp only [List.any_eq_false]
    intro p hp
    simpa using beq_eq_false_iff_ne.mpr (h p hp)
  simp [hk]

theorem build_fold_tables (exec : InsertExec) (ts : List ParsedTable)
    (acc : List (String × Nat)) (ws : List String)
    (hnodup : (ts.map (·.name)).Nodup)
    (hacc : ∀ nm ∈ acc.map (·.1), nm ∉ ts.map (·.name)) :
    ts.foldl
      (fun acc t =>
        let ins := insert_data exec t.name t.data
        (dict_set acc.1 t.name ins.1, acc.2 ++ ins.2))
      (acc, ws)
    = (acc ++ ts.map (fun t => (t.name, table_inserted exec t)),
       ws ++ ts.flatMap (table_warnings exec)) := by
  induction ts generalizing acc ws with
  | nil => simp
  | cons t rest ih =>
    simp only [List.foldl_cons]
    have hins : insert_data exec t.name t.data = (table_inserted exec t, table_warnings exec t) :=
      insert_data_eq exec t.name t.data
    have hset : dict_set acc t.name (table_inserted exec t)
        = acc ++ [(t.name, table_inserted exec t)] := by
      refine dict_set_absent acc t.name _ ?_
      intro p hp
      intro hcontra
      exact hacc p.1 (List.mem_map_of_mem _ hp) (hcontra ▸ List.mem_cons_self _ _)
    rw [hins]
    simp only [hset]
    rw [ih (acc ++ [(t.name, table_inserted exec t)]) (ws ++ table_warnings exec t)
          (by simpa using hnodup.of_cons)
          ?_]
    · simp
    · intro nm hnm
      simp only [List.map_append, List.mem_append, List.map_cons, List.map_nil,
        List.mem_cons, List.mem_singleton, List.not_mem_nil, or_false] at hnm
      rcases hnm with hnm | hnm
      · intro hmem
        exact hacc nm hnm (List.mem_cons_of_mem _ hmem)
      · subst hnm
        have := hnodup
        simp only [List.map_cons, List.nodup_cons] at this
        exact this.1

/-- C3: materialization attempts every row independently: `tables_created` is
the exact number of CREATE statements the engine accepted, `rows_inserted`
maps each table to the exact number of rows the engine accepted for it,
`warnings` is exactly one message per rejected row naming its table (in
order, across all tables — later rows and later tables are still processed),
and each table's warning count is its row count minus its inserted count. -/
theorem c3_materialization_counts (createResults : List (Option String))
    (exec : InsertExec) (parsedData : List ParsedFile)
    (hnames : (((parsedData.flatMap (·.tables)).map (·.name)).Nodup)) :
    (create_database_from_schema createResults exec parsedData).success = true ∧
    (create_database_from_schema createResults exec parsedData).tablesCreated
      = createResults.countP (·.isNone) ∧
    (create_database_from_schema createResults exec parsedData).rowsInserted
      = (parsedData.flatMap (·.tables)).map (fun t => (t.name, table_inserted exec t)) ∧
    (create_database_from_schema createResults exec parsedData).warnings
      = (parsedData.flatMap (·.tables)).flatMap (table_warnings exec) ∧
    ∀ t ∈ parsedData.flatMap (·.tables),
      (table_warnings exec t).length = t.data.length - table_inserted exec t := by
  have hfold := build_fold_tables exec (parsedData.flatMap (·.tables)) [] [] hnames
    (by intro nm h; simp at h)
  refine ⟨rfl, rfl, ?_, ?_, ?_⟩
  · show ((parsedData.flatMap (·.tables)).foldl _ ([], [])).1 = _
    rw [hfold]
    simp
  · show ((parsedData.flatMap (·.tables)).foldl _ ([], [])).2 = _
    rw [hfold]
    simp
  · intro t _
    unfold table_warnings table_inserted
    rw [length_filterMap_countP]
    have : (fun row => ((exec t.name (row_values (insert_cols t.data) row)).map
        fun e => "Error inserting row into " ++ t.name ++ ": " ++ e).isSome)
        = fun row => (exec t.name (row_values (insert_cols t.data) row)).isSome := by
      funext row
      cases exec t.name (row_values (insert_cols t.data) row) <;> rfl
    rw [this]
    have hnn : ∀ row : Row, (exec t.name (row_values (insert_cols t.data) row)).isSome
        = !(exec t.name (row_values (insert_cols t.data) row)).isNone := by
      intro row
      cases exec t.name (row_values (insert_cols t.data) row) <;> rfl
    calc (t.data.countP fun row => (exec t.name (row_values (insert_cols t.data) row)).isSome)
        = t.data.length - t.data.countP fun row =>
            (exec t.name (row_values (insert_cols t.data) row)).isNone :=
          countP_isSome_isNone _ t.data

theorem c3_witness :
    ((([c3_file].flatMap (·.tables)).map (·.name)).Nodup) ∧
    (create_database_from_schema [Option.none] c3_exec [c3_file]).rowsInserted
      = ([c3_file].flatMap (·.tables)).map (fun t => (t.name, table_inserted c3_exec t)) ∧
    (create_database_from_schema [Option.none] c3_exec [c3_file]).rowsInserted
      = [("patients", 9)] ∧
    (create_database_from_schema [Option.none] c3_exec [c3_file]).warnings
      = ["Error inserting row into patients: NOT NULL constraint failed: patients.name"] ∧
    (create_database_from_schema [Option.none] c3_exec [c3_file]).tablesCreated = 1 :=
  ⟨by decide,
   (c3_materialization_counts [Option.none] c3_exec [c3_file] (by decide)).2.2.1,
   by decide, by decide, by decide⟩

/-! ### C4 -/

theorem max_by_score_mem (c : PkCandidate) (cs : List PkCandidate) :
    max_by_score c cs ∈ c :: cs := by
  induction cs generalizing c with
  | nil => simp [max_by_score]
  | cons x xs ih =>
    have hstep : max_by_score c (x :: xs)
        = max_by_score (if x.score > c.score then x else c) xs := rfl
    rw [hstep]
    have := ih (if x.score > c.score then x else c)
    rcases List.mem_cons.mp this with h | h
    · rw [h]
      by_cases hx : x.score > c.score <;> simp [hx]
    · exact List.mem_cons_of_mem _ (List.mem_cons_of_mem _ h)

theorem max_by_score_ge (c : PkCandidate) (cs : List PkCandidate) :
    ∀ y ∈ c :: cs, y.score ≤ (max_by_score c cs).score := by
  induction cs generalizing c with
  | nil => intro y hy; simp at hy; simp [max_by_score, hy]
  | cons x xs ih =>
    intro y hy
    have hstep : max_by_score c (x :: xs)
        = max_by_score (if x.score > c.score then x else c) xs := rfl
    rw [hstep]
    have hbase : ∀ z : PkCandidate, z = c ∨ z = x →
        z.score ≤ (if x.score > c.score then x else c).score := by
      intro z hz
      by_cases hx : x.score > c.score <;> rcases hz with hz | hz <;> subst hz <;> simp [hx] <;> omega
    have hhead : (if x.score > c.score then x else c).score
        ≤ (max_by_score (if x.score > c.score then x else c) xs).score :=
      ih _ _ (List.mem_cons_self _ _)
    rcases List.mem_cons.mp hy with hy | hy
    · exact le_trans (hbase y (Or.inl hy)) hhead
    · rcases List.mem_cons.mp hy with hy | hy
      · exact le_trans (hbase y (Or.inr hy)) hhead
      · exact ih _ y (List.mem_cons_of_mem _ hy)

/-- C4: for a table with at least one row, exactly the columns whose unique
count equals the row count and whose null count is zero qualify; the score of
a column is 100 plus 50 when its lower-cased name contains "id", plus 25 when
that name is "id" or ends in "_id", plus 25 when its type is "integer"; a
table with no qualifying column gets no suggestion; otherwise the suggestion
names a qualifying column of maximal score, with confidence "high" exactly
when that score reaches 150 and "medium" otherwise. -/
theorem c4_primary_key_suggestion (t : ParsedTable) (h : 0 < t.rowCount) :
    (∀ col : ColumnInfo, pk_score col
        = 100 + (if strContains (lowerStr col.name) "id" then 50 else 0)
              + (if lowerStr col.name == "id" || strEndsWith (lowerStr col.name) "_id"
                 then 25 else 0)
              + (if col.type == "integer" then 25 else 0)) ∧
    (suggest_primary_key t = Option.none ↔
        ∀ col ∈ t.columns, ¬(col.uniqueCount = t.rowCount ∧ col.nullCount = 0)) ∧
    (∀ s, suggest_primary_key t = some s →
        ∃ col ∈ t.columns,
          col.uniqueCount = t.rowCount ∧ col.nullCount = 0 ∧ s.column = col.name ∧
          (∀ col' ∈ t.columns, col'.uniqueCount = t.rowCount → col'.nullCount = 0 →
              pk_score col' ≤ pk_score col) ∧
          s.confidence = (if 150 ≤ pk_score col then "high" else "medium")) := by
  have hqual : ∀ col, pk_qualifies t col = true
      ↔ (col.uniqueCount = t.rowCount ∧ col.nullCount = 0) := by
    intro col
    simp [pk_qualifies]
  have hrc : (t.rowCount == 0) = false := by
    simp only [beq_eq_false_iff_ne]
    omega
  refine ⟨?_, ?_, ?_⟩
  · intro col
    simp only [pk_score, Bool.or_comm]
    split <;> split <;> split <;> omega
  · rw [show (suggest_primary_key t = Option.none ↔ pk_candidates t = []) from ?_]
    · unfold pk_candidates
      rw [List.filterMap_eq_nil_iff]
      constructor
      · intro hall col hcol hq
        have := hall col hcol
        rw [if_pos ((hqual col).mpr hq)] at this
        exact Option.noConfusion this
      · intro hall col hcol
        rw [if_neg ?_]
        intro hq
        exact hall col hcol ((hqual col).mp hq)
    · unfold suggest_primary_key
      rw [hrc]
      cases hc : pk_candidates t with
      | nil => simp
      | cons c cs => simp
  · intro s hs
    unfold suggest_primary_key at hs
    rw [hrc] at hs
    cases hc : pk_candidates t with
    | nil => rw [hc] at hs; exact Option.noConfusion hs
    | cons c cs =>
      rw [hc] at hs
      simp only [Bool.false_eq_true, if_false, Option.some.injEq] at hs
      have hbestmem : max_by_score c cs ∈ pk_candidates t := by
        rw [hc]; exact max_by_score_mem c cs
      obtain ⟨col, hcolmem, hcoleq⟩ := List.mem_filterMap.mp hbestmem
      have hcq : pk_qualifies t col = true := by
        by_contra hq
        rw [if_neg hq] at hcoleq
        exact Option.noConfusion hcoleq
      rw [if_pos hcq] at hcoleq
      have hcoleq' := Option.some.inj hcoleq
      subst hs
      refine ⟨col, hcolmem, ((hqual col).mp hcq).1, ((hqual col).mp hcq).2, ?_, ?_, ?_⟩
      · rw [← hcoleq']
      · intro col' hmem' hu' hn'
        have hc'mem : (⟨col'.name, pk_score col',
            "Unique values, no nulls, type: " ++ col'.type⟩ : PkCandidate)
            ∈ pk_candidates t := by
          refine List.mem_filterMap.mpr ⟨col', hmem', ?_⟩
          rw [if_pos ((hqual col').mpr ⟨hu', hn'⟩)]
        rw [hc] at hc'mem
        have := max_by_score_ge c cs _ hc'mem
        rw [← hcoleq'] at this
        simpa using this
      · rw [← hcoleq']

theorem c4_witness :
    0 < c4_table.rowCount ∧
    (suggest_primary_key c4_table = Option.none ↔
        ∀ col ∈ c4_table.columns,
          ¬(col.uniqueCount = c4_table.rowCount ∧ col.nullCount = 0)) ∧
    suggest_primary_key c4_table
      = some { column := "id", confidence := "high",
               reason := "Unique values, no nulls, type: integer" } :=
  ⟨by decide, (c4_primary_key_suggestion c4_table (by decide)).2.1, by decide⟩

/-! ### C5 and C6 -/

theorem calculate_column_similarity_comm (c1 c2 : ColumnInfo) :
    calculate_column_similarity c1 c2 = calculate_column_similarity c2 c1 := by
  simp only [calculate_column_similarity]
  rw [str_beq_comm c1.name c2.name, str_beq_comm c1.type c2.type,
      Bool.or_comm (strContains (lowerStr c2.name) (lowerStr c1.name))
        (strContains (lowerStr c1.name) (lowerStr c2.name)),
      Bool.or_comm (strContains (lowerStr c1.name) "_id" && lowerStr c2.name == "id")
        (strContains (lowerStr c2.name) "_id" && lowerStr c1.name == "id")]

theorem get_relationship_reason_comm (c1 c2 : ColumnInfo) :
    get_relationship_reason c1 c2 = get_relationship_reason c2 c1 := by
  by_cases ht : c1.type = c2.type
  · simp only [get_relationship_reason, ht]
    rw [str_beq_comm c1.name c2.name,
        Bool.or_comm (strContains (lowerStr c2.name) (lowerStr c1.name))
          (strContains (lowerStr c1.name) (lowerStr c2.name)),
        Bool.or_comm (strContains (lowerStr c1.name) "_id")
          (strContains (lowerStr c2.name) "_id")]
  · have h1 : (c1.type == c2.type) = false := beq_eq_false_iff_ne.mpr ht
    have h2 : (c2.type == c1.type) = false := beq_eq_false_iff_ne.mpr (Ne.symm ht)
    simp only [get_relationship_reason, h1, h2, Bool.false_eq_true, if_false]
    rw [str_beq_comm c1.name c2.name,
        Bool.or_comm (strContains (lowerStr c2.name) (lowerStr c1.name))
          (strContains (lowerStr c1.name) (lowerStr c2.name)),
        Bool.or_comm (strContains (lowerStr c1.name) "_id")
          (strContains (lowerStr c2.name) "_id")]

theorem detect_pair (e1 e2 : TableEntry) :
    detect_relationships [e1, e2] = rels_between e1 e2 := by
  simp [detect_relationships]

theorem mem_rels_between (t1 t2 : TableEntry) (r : Relationship) :
    r ∈ rels_between t1 t2 ↔
      ∃ c1 ∈ t1.table.columns, ∃ c2 ∈ t2.table.columns,
        5 < calculate_column_similarity c1 c2 ∧
        mk_relationship t1 t2 c1 c2 (calculate_column_similarity c1 c2) = r := by
  simp only [rels_between, List.mem_flatMap, List.mem_filterMap]
  constructor
  · rintro ⟨c1, h1, c2, h2, heq⟩
    by_cases hsc : 5 < calculate_column_similarity c1 c2
    · rw [if_pos hsc] at heq
      exact ⟨c1, h1, c2, h2, hsc, Option.some.inj heq⟩
    · rw [if_neg hsc] at heq
      exact Option.noConfusion heq
  · rintro ⟨c1, h1, c2, h2, hsc, heq⟩
    refine ⟨c1, h1, c2, h2, ?_⟩
    rw [if_pos hsc, heq]

/-- C5 counterexample: for the column pair ("a_idb" : text, "id" : integer)
the claimed formula scores 0.3 — below the reporting threshold — while the
code scores 0.7 and reports a medium-confidence relationship, because the
code's naming-pattern bonus asks only that one name contain "_id", not end
in it. -/
theorem c5_counterexample :
    claimed_column_similarity c5_colA c5_colB = 3 ∧
    calculate_column_similarity c5_colA c5_colB = 7 ∧
    calculate_column_similarity c5_colA c5_colB ≠ claimed_column_similarity c5_colA c5_colB ∧
    detect_relationships [c5_e1, c5_e2]
      = [mk_relationship c5_e1 c5_e2 c5_colA c5_colB 7] ∧
    (mk_relationship c5_e1 c5_e2 c5_colA c5_colB 7).confidence = "medium" := by
  refine ⟨by decide, by decide, by decide, ?_, by decide⟩
  decide

/-- C5 (amended): the source's similarity score is the capped sum of +0.5 for
identical names, +0.3 when one lower-cased name is a substring of the other,
+0.2 for identical types and +0.4 when one lower-cased name contains "_id"
while the other is exactly "id"; a relationship between an ordered pair of
tables is reported exactly for the column pairs whose score is strictly
above 0.5, with confidence "high" exactly when it is strictly above 0.8 and
"medium" otherwise. -/
theorem c5_similarity_and_reporting (c1 c2 : ColumnInfo) (e1 e2 : TableEntry)
    (r : Relationship) (sc : Nat) :
    calculate_column_similarity c1 c2 = amended_column_similarity c1 c2 ∧
    (r ∈ detect_relationships [e1, e2] ↔
      ∃ d1 ∈ e1.table.columns, ∃ d2 ∈ e2.table.columns,
        5 < calculate_column_similarity d1 d2 ∧
        mk_relationship e1 e2 d1 d2 (calculate_column_similarity d1 d2) = r) ∧
    (mk_relationship e1 e2 c1 c2 sc).confidence = (if 8 < sc then "high" else "medium") := by
  refine ⟨?_, ?_, rfl⟩
  · simp only [calculate_column_similarity, amended_column_similarity]
    by_cases hA : (c1.name == c2.name) = true <;>
      by_cases hB : (strContains (lowerStr c2.name) (lowerStr c1.name)
          || strContains (lowerStr c1.name) (lowerStr c2.name)) = true <;>
        by_cases hC : (c1.type == c2.type) = true <;>
          by_cases hD : ((strContains (lowerStr c1.name) "_id" && lowerStr c2.name == "id")
              || (strContains (lowerStr c2.name) "_id" && lowerStr c1.name == "id")) = true <;>
            simp [hA, hB, hC, hD]
  · rw [detect_pair]
    exact mem_rels_between e1 e2 r

theorem swap_relationship_mk (e1 e2 : TableEntry) (c1 c2 : ColumnInfo) :
    swap_relationship (mk_relationship e1 e2 c1 c2 (calculate_column_similarity c1 c2))
      = mk_relationship e2 e1 c2 c1 (calculate_column_similarity c2 c1) := by
  simp [swap_relationship, mk_relationship, calculate_column_similarity_comm c1 c2,
        get_relationship_reason_comm c1 c2]

theorem swap_relationship_involutive (r : Relationship) :
    swap_relationship (swap_relationship r) = r := rfl

/-- C6: relationship detection over a two-table list is symmetric in the
table ordering: a relationship is detected for `[A, B]` exactly when the
same relationship with its from/to labels swapped — same column pair, same
confidence, same reason — is detected for `[B, A]`. -/
theorem c6_detection_symmetric (e1 e2 : TableEntry) (r : Relationship) :
    r ∈ detect_relationships [e1, e2]
      ↔ swap_relationship r ∈ detect_relationships [e2, e1] := by
  rw [detect_pair, detect_pair, mem_rels_between, mem_rels_between]
  constructor
  · rintro ⟨d1, h1, d2, h2, hsc, heq⟩
    refine ⟨d2, h2, d1, h1, ?_, ?_⟩
    · rw [← calculate_column_similarity_comm d1 d2]; exact hsc
    · rw [← heq, swap_relationship_mk]
  · rintro ⟨d2, h2, d1, h1, hsc, heq⟩
    refine ⟨d1, h1, d2, h2, ?_, ?_⟩
    · rw [calculate_column_similarity_comm d1 d2]; exact hsc
    · calc mk_relationship e1 e2 d1 d2 (calculate_column_similarity d1 d2)
          = swap_relationship (mk_relationship e2 e1 d2 d1
              (calculate_column_similarity d2 d1)) := (swap_relationship_mk e2 e1 d2 d1).symm
        _ = swap_relationship (swap_relationship r) := by rw [heq]
        _ = r := swap_relationship_involutive r

/-! ### C1 -/

/-- C1 counterexample: with the synthesis service failing on every call,
`generate_schema` propagates the exception instead of returning a degraded
`SchemaResult` with `verification_status = false` — the method contains no
try/except. -/
theorem c1_counterexample :
    generate_schema failing_service 10 = Except.error "service unavailable" := rfl

theorem schema_rounds_total (svc : SynthesisService)
    (hRefine : ∀ n p v, ∃ p', svc.refinePlan n p v = .ok p')
    (hCode : ∀ n p, ∃ c, svc.generateCode n p = .ok c)
    (hVerify : ∀ n c p, ∃ v, svc.verifySchemaRaw n c p = .ok v) :
    ∀ (fuel round : Nat) (plan : Plan) (verif : Verification),
      ∃ p v r, schema_rounds svc fuel round plan verif = .ok (p, v, r) ∧
        round ≤ r ∧ r ≤ round + fuel ∧ (v.isSufficient = true ∨ r = round + fuel) := by
  intro fuel
  induction fuel with
  | zero =>
    intro round plan verif
    refine ⟨plan, verif, round, ?_, le_refl _, by omega, ?_⟩
    · unfold schema_rounds
      split <;> rfl
    · by_cases hs : verif.isSufficient = true
      · exact Or.inl hs
      · right; omega
  | succ fuel ih =>
    intro round plan verif
    by_cases hs : verif.isSufficient = true
    · refine ⟨plan, verif, round, ?_, le_refl _, by omega, Or.inl hs⟩
      unfold schema_rounds
      rw [if_pos hs]
    · obtain ⟨p', hp'⟩ := hRefine (round + 1) plan verif
      obtain ⟨c, hcode⟩ := hCode (round + 1) p'
      obtain ⟨v, hv⟩ := hVerify (round + 1) c p'
      obtain ⟨pf, vf, rf, hrec, h1, h2, h3⟩ := ih (round + 1) p' (verify_schema_post v)
      refine ⟨pf, vf, rf, ?_, by omega, by omega, ?_⟩
      · unfold schema_rounds
        rw [if_neg hs]
        simp only [hp', hcode, verify_schema, hv, bind, Except.bind, pure, Except.pure]
        exact hrec
      · rcases h3 with h3 | h3
        · exact Or.inl h3
        · right; omega

/-- C1 (amended): `generate_schema` runs at most `max_rounds` refinement
rounds; whenever every service call returns successfully it returns a
`SchemaResult` whose `rounds_taken` lies between 1 and `max_rounds` and whose
`verification_status` can only be false when all `max_rounds` rounds were
used; but when a service call raises, the exception propagates out of
`generate_schema` (no degradation to a last-known plan happens — the
counterexample shows the raising run). -/
theorem c1_generate_schema_bounded (svc : SynthesisService) (maxRounds : Nat)
    (hmr : 0 < maxRounds)
    (hInit : ∃ p, svc.createInitialPlan = .ok p)
    (hRefine : ∀ n p v, ∃ p', svc.refinePlan n p v = .ok p')
    (hCode : ∀ n p, ∃ c, svc.generateCode n p = .ok c)
    (hVerify : ∀ n c p, ∃ v, svc.verifySchemaRaw n c p = .ok v) :
    ∃ res, generate_schema svc maxRounds = .ok res ∧
      1 ≤ res.roundsTaken ∧ res.roundsTaken ≤ maxRounds ∧
      (res.verificationStatus = true ∨ res.roundsTaken = maxRounds) := by
  obtain ⟨p0, hp0⟩ := hInit
  obtain ⟨c0, hc0⟩ := hCode 1 p0
  obtain ⟨v0, hv0⟩ := hVerify 1 c0 p0
  obtain ⟨pf, vf, rf, hrec, h1, h2, h3⟩ :=
    schema_rounds_total svc hRefine hCode hVerify (maxRounds - 1) 1 p0 (verify_schema_post v0)
  obtain ⟨cf, hcf⟩ := hCode 0 pf
  refine ⟨{ schemaCode := cf, schemaDescription := generate_description pf,
            verificationStatus := vf.isSufficient, warnings := vf.warnings,
            relationshipsDetected := pf.relationships, roundsTaken := rf },
          ?_, by show 1 ≤ rf; omega, by show rf ≤ maxRounds; omega, ?_⟩
  · simp only [generate_schema, hp0, hc0, verify_schema, hv0, hrec, hcf,
               bind, Except.bind, pure, Except.pure]
  · rcases h3 with h3 | h3
    · exact Or.inl h3
    · right; show rf = maxRounds; omega

theorem c1_witness :
    ∃ res, generate_schema total_service 10 = Except.ok res ∧
      1 ≤ res.roundsTaken ∧ res.roundsTaken ≤ 10 ∧
      (res.verificationStatus = true ∨ res.roundsTaken = 10) :=
  c1_generate_schema_bounded total_service 10 (by decide)
    ⟨{}, rfl⟩ (fun _ p _ => ⟨p, rfl⟩) (fun _ _ => ⟨"code", rfl⟩)
    (fun _ _ _ => ⟨{ isSufficient := true, issues := [], warnings := [] }, rfl⟩)

end Ingest
